import Mathlib

/-!
# Verification of the pigweed RPC / transfer core

A shallow embedding of the pieces of the repository that the specified
properties talk about:

* the RPC `Packet` minimum-size computation and the `Channel` output-buffer
  discipline (`pw_rpc/channel_test.cc` fixes the constants; the codec and
  channel bodies are modelled from the spec where the sources are absent),
* `BaseServerWriter` (`pw_rpc/base_server_writer.cc`),
* the transfer `Client` facade (`pw_transfer/public/pw_transfer/client.h`),
* the `Persistent` integrity container
  (`pw_persistent_ram/public/pw_persistent_ram/persistent.h`),
* the RPC call state machine, modelled from the spec's transition table.

Machine integers are modelled as `Nat`; none of the verified operations
performs arithmetic that could wrap a `uint32_t`, so no modular reduction is
needed.
-/

namespace Pigweed

/-- The status codes surfaced to users (spec section 6). -/
inductive Status where
  | ok
  | cancelled
  | invalidArgument
  | deadlineExceeded
  | notFound
  | resourceExhausted
  | failedPrecondition
  | unavailable
  | dataLoss
  | internal
deriving DecidableEq, Repr

/-- A view into an output buffer: a byte span described by its start offset
from the buffer's base pointer and its length.  `pw::span<std::byte>` carries
a data pointer and a size; relative to the owning buffer those are exactly an
offset and a size. -/
structure Span where
  offset : Nat
  size : Nat
deriving DecidableEq, Repr

/-- The default-constructed (`{}`) empty span. -/
def Span.empty : Span := ⟨0, 0⟩

/-- An RPC packet.  Fields follow `pw_rpc/internal/packet.h` as fixed by the
test `channel_test.cc` and spec section 3: a type, the routing ids, an opaque
payload and a status.  Bytes are modelled as `Nat`s below 256; only the
payload's length matters to the channel. -/
structure Packet where
  ptype : Nat
  channelId : Nat
  serviceId : Nat
  methodId : Nat
  payload : List Nat := []
  status : Nat := 0
deriving DecidableEq, Repr

/-- `PacketType::RPC`, the packet type used by `channel_test.cc`. -/
def PacketType.RPC : Nat := 0

/-- The six required packet fields (spec sections 4.1 and 6): type, channel,
service, method, payload key, status. -/
inductive PacketField where
  | ptype
  | channel
  | service
  | method
  | payloadKey
  | status
deriving DecidableEq, Repr

/-- The list of required fields, in wire order. -/
def Packet.requiredFields : List PacketField :=
  [.ptype, .channel, .service, .method, .payloadKey, .status]

/-- Modelled from the spec: `Packet::MinEncodedSizeBytes` from
`pw_rpc/internal/packet.h` is not under the sources; spec section 4.1 defines
the minimum encoded size of a packet with all required fields and a
zero-length payload as 2 bytes per required field (one tag byte plus one
minimal varint byte), summed over the six required fields. -/
def Packet.MinEncodedSizeBytes (_p : Packet) : Nat :=
  (Packet.requiredFields.map fun _ => 2).sum

/-- `kTestPacket` from `channel_test.cc`:
`Packet(PacketType::RPC, 1, 42, 100)` (empty payload, zero status). -/
def kTestPacket : Packet :=
  { ptype := PacketType.RPC, channelId := 1, serviceId := 42, methodId := 100 }

/-- `kReservedSize` from `channel_test.cc`: 2 bytes each for type, channel,
service, method, payload key and status. -/
def kReservedSize : Nat := 2 + 2 + 2 + 2 + 2 + 2

/-- Modelled from the spec: `Channel::OutputBuffer::payload` from
`pw_rpc/internal/channel.h` is not under the sources; spec section 4.2 says it
returns the sub-span of the acquired buffer left after reserving the packet's
minimum encoded size as header bytes, and `channel_test.cc` checks that a
buffer smaller than the reserved size yields an empty span.  `bufferSize` is
the size of the span handed out by the `ChannelOutput`. -/
def OutputBuffer.payload (bufferSize : Nat) (p : Packet) : Span :=
  if p.MinEncodedSizeBytes ≤ bufferSize then
    ⟨p.MinEncodedSizeBytes, bufferSize - p.MinEncodedSizeBytes⟩
  else
    Span.empty

/-- Modelled from the spec: `Channel::Send` from `pw_rpc/internal/channel.h`
is not under the sources; spec section 4.2 says it serializes the packet into
the buffer's prefix and calls `send_and_release`, returning `Internal` when
the output's buffer is smaller than the reserved header size or when the
payload does not fit in the remaining buffer.  The encoded packet occupies the
reserved header bytes followed by the payload bytes. -/
def Channel.Send (bufferSize : Nat) (p : Packet) : Status :=
  if p.MinEncodedSizeBytes + p.payload.length ≤ bufferSize then
    .ok
  else
    .internal

/-! ## `BaseServerWriter` (`pw_rpc/base_server_writer.cc`) -/

/-- The writer state.  The source file sets `state_ = kClosed` and guards each
operation with `open()`; the header declaring the enum is not under the
sources, so the two states are taken from the `.cc`'s uses. -/
inductive WriterState where
  | kOpen
  | kClosed
deriving DecidableEq, Repr

/-- The server call a writer is bound to: its channel (identified by id, with
the size of the buffer the channel's output hands out) and the service and
method ids, as used by `BaseServerWriter::packet`. -/
structure ServerCall where
  channelId : Nat
  channelBufferSize : Nat
  serviceId : Nat
  methodId : Nat
deriving DecidableEq, Repr

/-- `BaseServerWriter`: the call it serves, the held response buffer
(`response_`, modelled by the size of the span acquired from the channel) and
its open/closed state. -/
structure BaseServerWriter where
  call : ServerCall
  response : Nat
  state : WriterState
deriving DecidableEq, Repr

/-- `BaseServerWriter::open()`: the writer is usable while not closed.  The
declaring header is not under the sources; the `.cc` forces this reading
(every operation bails out when `!open()`, and closing is `state_ =
kClosed`). -/
def BaseServerWriter.isOpen (w : BaseServerWriter) : Bool :=
  w.state = .kOpen

/-- `BaseServerWriter::packet(payload)`: an RPC packet for this call with the
given payload (`base_server_writer.cc` lines 59-65). -/
def BaseServerWriter.packet (w : BaseServerWriter) (payload : List Nat) :
    Packet :=
  { ptype := PacketType.RPC
    channelId := w.call.channelId
    serviceId := w.call.serviceId
    methodId := w.call.methodId
    payload := payload }

/-- Move assignment `target = std::move(source)`
(`base_server_writer.cc` lines 23-30): the target takes the source's call,
response and state, and the source is left `kClosed`.  Returns
(new target, moved-from source). -/
def BaseServerWriter.moveAssign (_target source : BaseServerWriter) :
    BaseServerWriter × BaseServerWriter :=
  ({ call := source.call, response := source.response, state := source.state },
   { source with state := .kClosed })

/-- `BaseServerWriter::Finish()` (`base_server_writer.cc` lines 32-41): a
no-op when not open; otherwise marks the writer closed.  The list of packets
the call emits on the channel is returned alongside the writer: the source
sends nothing (the terminal control packet is an unimplemented TODO). -/
def BaseServerWriter.Finish (w : BaseServerWriter) :
    BaseServerWriter × List Packet :=
  if ¬w.isOpen then
    (w, [])
  else
    ({ w with state := .kClosed }, [])

/-- `BaseServerWriter::AcquirePayloadBuffer()`
(`base_server_writer.cc` lines 43-50): an empty span when not open; otherwise
stores the channel's acquired buffer in `response_` and returns the payload
sub-span for this call's packet. -/
def BaseServerWriter.AcquirePayloadBuffer (w : BaseServerWriter) :
    BaseServerWriter × Span :=
  if ¬w.isOpen then
    (w, Span.empty)
  else
    ({ w with response := w.call.channelBufferSize },
     OutputBuffer.payload w.call.channelBufferSize (w.packet []))

/-- `BaseServerWriter::ReleasePayloadBuffer(payload)`
(`base_server_writer.cc` lines 52-57): `FailedPrecondition` when not open;
otherwise sends this call's packet carrying `payload` through the channel.
Returns the status and the packets that went out on the wire. -/
def BaseServerWriter.ReleasePayloadBuffer (w : BaseServerWriter)
    (payload : List Nat) : Status × List Packet :=
  if ¬w.isOpen then
    (.failedPrecondition, [])
  else
    match Channel.Send w.response (w.packet payload) with
    | .ok => (.ok, [w.packet payload])
    | s => (s, [])

/-! ## Transfer client facade (`pw_transfer/public/pw_transfer/client.h`) -/

/-- `Client::TransferHandle`: an opaque handle with
`kUnassignedHandleId = 0`; the default constructor yields the unassigned
handle (`client.h` lines 31-45). -/
structure TransferHandle where
  id : Nat := 0
deriving DecidableEq, Repr

/-- `TransferHandle::kUnassignedHandleId`. -/
def TransferHandle.kUnassignedHandleId : Nat := 0

/-- `TransferHandle::is_unassigned()`. -/
def TransferHandle.is_unassigned (h : TransferHandle) : Bool :=
  h.id = TransferHandle.kUnassignedHandleId

/-- The events a transfer client hands to the transfer thread
(spec section 4.7). -/
inductive TransferEvent where
  | newClientTransfer (resourceId : Nat)
  | cancelClientTransfer (handleId : Nat)
deriving DecidableEq, Repr

/-- The transfer thread as the client sees it: the fixed chunk size its
static buffer allows, and the queue of events handed to it.  The thread
itself is not under the sources. -/
structure TransferThread where
  maxChunkSize : Nat
  queue : List TransferEvent := []
deriving DecidableEq, Repr

/-- Modelled from the spec: `TransferThread::CancelClientTransfer` is not
under the sources; spec sections 4.7-4.8 say cancelling enqueues a single
cancel event for the handle on the thread's work queue. -/
def TransferThread.CancelClientTransfer (t : TransferThread)
    (handleId : Nat) : TransferThread :=
  { t with queue := t.queue ++ [.cancelClientTransfer handleId] }

/-- `internal::TransferParameters` as constructed by the client: the window
size, chunk size and extend-window divisor (`client.h` lines 81-85, 197). -/
structure TransferParameters where
  maxWindowSizeBytes : Nat
  maxChunkSizeBytes : Nat
  extendWindowDivisor : Nat
deriving DecidableEq, Repr

/-- `cfg::kDefaultMaxClientRetries`; the config header is not under the
sources, and no verified property depends on the value. -/
def kDefaultMaxClientRetries : Nat := 3

/-- `cfg::kDefaultMaxLifetimeRetries`; the config header is not under the
sources, and no verified property depends on the value. -/
def kDefaultMaxLifetimeRetries : Nat := 1500

/-- `cfg::kDefaultExtendWindowDivisor`; the config header is not under the
sources, and no verified property depends on the value. -/
def kDefaultExtendWindowDivisor : Nat := 2

/-- The transfer `Client`'s state: the handle counter, the stored transfer
parameters, the retry limits, and the transfer thread it drives
(`client.h` lines 183-203).  The RPC client reference and the stream flags
play no part in the verified properties but are carried for fidelity. -/
structure Client where
  nextHandleId : Nat
  maxParameters : TransferParameters
  maxRetries : Nat
  maxLifetimeRetries : Nat
  thread : TransferThread
  hasReadStream : Bool
  hasWriteStream : Bool
deriving DecidableEq, Repr

/-- The `Client` constructor (`client.h` lines 72-89): the stored window size
is `max_bytes_to_receive` when positive, otherwise the thread's
`max_chunk_size()`; retry limits start at their configured defaults. -/
def Client.construct (thread : TransferThread) (maxBytesToReceive : Nat := 0)
    (extendWindowDivisor : Nat := kDefaultExtendWindowDivisor) : Client :=
  { nextHandleId := 1
    maxParameters :=
      { maxWindowSizeBytes :=
          if maxBytesToReceive > 0 then maxBytesToReceive
          else thread.maxChunkSize
        maxChunkSizeBytes := thread.maxChunkSize
        extendWindowDivisor := extendWindowDivisor }
    maxRetries := kDefaultMaxClientRetries
    maxLifetimeRetries := kDefaultMaxLifetimeRetries
    thread := thread
    hasReadStream := false
    hasWriteStream := false }

/-- `Client::CancelTransfer(handle)` (`client.h` lines 148-152): a no-op for
an unassigned handle; otherwise hands the handle id to the transfer thread's
cancel entry point. -/
def Client.CancelTransfer (c : Client) (handle : TransferHandle) : Client :=
  if ¬handle.is_unassigned then
    { c with thread := c.thread.CancelClientTransfer handle.id }
  else
    c

/-- `Client::set_extend_window_divisor` (`client.h` lines 154-161):
`InvalidArgument` for divisors ≤ 1, leaving the client untouched; otherwise
stores the divisor and returns `Ok`. -/
def Client.set_extend_window_divisor (c : Client)
    (extendWindowDivisor : Nat) : Status × Client :=
  if extendWindowDivisor ≤ 1 then
    (.invalidArgument, c)
  else
    (.ok, { c with maxParameters :=
      { c.maxParameters with extendWindowDivisor := extendWindowDivisor } })

/-- `Client::set_max_retries` (`client.h` lines 163-169): `InvalidArgument`
when below 1 or above the current lifetime limit, leaving the client
untouched; otherwise stores the limit and returns `Ok`. -/
def Client.set_max_retries (c : Client) (maxRetries : Nat) :
    Status × Client :=
  if maxRetries < 1 ∨ maxRetries > c.maxLifetimeRetries then
    (.invalidArgument, c)
  else
    (.ok, { c with maxRetries := maxRetries })

/-- `Client::set_max_lifetime_retries` (`client.h` lines 171-177):
`InvalidArgument` when below the current `max_retries_`, leaving the client
untouched; otherwise stores the limit and returns `Ok`. -/
def Client.set_max_lifetime_retries (c : Client)
    (maxLifetimeRetries : Nat) : Status × Client :=
  if maxLifetimeRetries < c.maxRetries then
    (.invalidArgument, c)
  else
    (.ok, { c with maxLifetimeRetries := maxLifetimeRetries })

/-! ## `Persistent<T>` (`pw_persistent_ram/.../persistent.h`)

The container is a raw value slot `contents_` plus a CRC16 tag `crc_`.  The
CRC implementation (`pw_checksum`) is not under the sources; every verified
property holds for an arbitrary checksum function, so the model abstracts it
as a function argument `crcFn`. -/

/-- `Persistent<T>`'s storage: the (possibly garbage) contents and the
integrity tag. -/
structure Persistent (α : Type) where
  contents : α
  crc : Nat

/-- Writing the value slot (`contents_ = value` / placement-new into
`contents_`), leaving the tag untouched. -/
def Persistent.writeContents {α : Type} (p : Persistent α) (v : α) :
    Persistent α :=
  { p with contents := v }

/-- Writing the tag from the current contents (`crc_ = Crc(contents_)`). -/
def Persistent.writeCrc {α : Type} (crcFn : α → Nat) (p : Persistent α) :
    Persistent α :=
  { p with crc := crcFn p.contents }

/-- `Persistent::emplace` (`persistent.h` lines 57-62): construct the value
in the slot, then recompute the tag from the stored contents.  The value
write strictly precedes the tag write. -/
def Persistent.emplace {α : Type} (crcFn : α → Nat) (p : Persistent α)
    (v : α) : Persistent α :=
  (p.writeContents v).writeCrc crcFn

/-- `Persistent::operator=` (`persistent.h` lines 65-70): assign the value
into the slot, then recompute the tag from the stored contents; the same
write order as `emplace`. -/
def Persistent.assign {α : Type} (crcFn : α → Nat) (p : Persistent α)
    (v : α) : Persistent α :=
  (p.writeContents v).writeCrc crcFn

/-- `Persistent::has_value` (`persistent.h` lines 80-82): there is a value
exactly when the stored tag matches the CRC of the current contents. -/
def Persistent.has_value {α : Type} (crcFn : α → Nat) (p : Persistent α) :
    Bool :=
  p.crc == crcFn p.contents

/-- `Persistent::value` (`persistent.h` lines 87-90): the stored contents.
The source asserts `has_value()` first; the verified properties only read it
in states where the assertion holds. -/
def Persistent.value {α : Type} (p : Persistent α) : α :=
  p.contents

/-! ## RPC call state machine (spec sections 4.3 and 8.5)

Modelled from the spec: the call implementation
(`pw_rpc/internal/call.h` / `client_call.h`) is not under the sources — only
the nanopb facade `client_reader_writer.h` that forwards callbacks to it —
so the per-call state machine is taken from the spec's transition table in
section 4.3.  A call that was started successfully begins in `Active`; each
event yields the next state and the user callbacks fired by it. -/

/-- The call states of the spec's table (after a successful start). -/
inductive CallState where
  | active
  | awaitingCompletion
  | closed
deriving DecidableEq, Repr

/-- The events of the spec's table that can reach a started call. -/
inductive CallEvent where
  | streamPayloadIn
  | terminalPacketIn
  | errorPacketIn
  | localCancel
  | localRequestCompletion
deriving DecidableEq, Repr

/-- The user callbacks of a call. -/
inductive Callback where
  | onNext
  | onCompleted
  | onError
deriving DecidableEq, Repr

/-- One row of the spec's transition table: next state and the callbacks the
transition fires.  In `Closed` every event is dropped.  `RequestCompletion`
only ends the client's stream, so inbound stream payloads still fire
`on_next` while awaiting completion, and the terminal/error rows of
`AwaitingCompletion` fire callbacks exactly as in `Active`. -/
def callStep (s : CallState) (e : CallEvent) : CallState × List Callback :=
  match s, e with
  | .active, .streamPayloadIn => (.active, [.onNext])
  | .active, .terminalPacketIn => (.closed, [.onCompleted])
  | .active, .errorPacketIn => (.closed, [.onError])
  | .active, .localCancel => (.closed, [])
  | .active, .localRequestCompletion => (.awaitingCompletion, [])
  | .awaitingCompletion, .streamPayloadIn => (.awaitingCompletion, [.onNext])
  | .awaitingCompletion, .terminalPacketIn => (.closed, [.onCompleted])
  | .awaitingCompletion, .errorPacketIn => (.closed, [.onError])
  | .awaitingCompletion, .localCancel => (.closed, [])
  | .awaitingCompletion, .localRequestCompletion => (.awaitingCompletion, [])
  | .closed, _ => (.closed, [])

/-- Run the call from a state over a list of events, collecting the
callbacks fired, in order. -/
def callRunFrom (s : CallState) : List CallEvent → List Callback
  | [] => []
  | e :: es =>
    let (s', cbs) := callStep s e
    cbs ++ callRunFrom s' es

/-- The callbacks a successfully started call fires over a whole run of
events. -/
def callRun (events : List CallEvent) : List Callback :=
  callRunFrom .active events

/-- Whether a callback is one of the two terminal callbacks. -/
def Callback.isTerminal : Callback → Bool
  | .onNext => false
  | .onCompleted => true
  | .onError => true

/-- The number of `on_completed` plus `on_error` invocations in a run's
callback list. -/
def terminalCallbackCount (cbs : List Callback) : Nat :=
  (cbs.filter Callback.isTerminal).length

/-- Whether an event closes the call when it is still live. -/
def CallEvent.isClosing : CallEvent → Bool
  | .terminalPacketIn => true
  | .errorPacketIn => true
  | .localCancel => true
  | _ => false

/-- Whether the first event of the run that closes the call is an inbound
terminal or error packet (as opposed to a local cancel, or no closing event
at all). -/
def closedByInboundPacket (events : List CallEvent) : Bool :=
  match events.find? CallEvent.isClosing with
  | some .terminalPacketIn => true
  | some .errorPacketIn => true
  | _ => false

/-- `on_next` is never fired after a terminal callback: every callback that
follows a terminal one (in fact, any callback at all) would have to be
absent.  Holds of a list exactly when no element after a terminal callback
exists. -/
def noCallbackAfterTerminal : List Callback → Bool
  | [] => true
  | c :: cs => if c.isTerminal then cs.isEmpty else noCallbackAfterTerminal cs

/-- The final state of a successfully started call after a run of events. -/
def callFinalState (events : List CallEvent) : CallState :=
  events.foldl (fun s e => (callStep s e).1) .active

/-! ## Helper lemmas -/

/-- Every packet carries the six required fields in this model, so the
minimum encoded size is always 12 bytes. -/
theorem Packet.minEncodedSizeBytes_eq (p : Packet) :
    p.MinEncodedSizeBytes = 12 := rfl

/-! ## The claims -/

/-- C2: on a server-side call, `Finish(status)` is claimed to send a terminal
response packet carrying the status and to close the writer.  Evaluating the
source's `Finish` on an open writer shows the second half only: the writer
transitions to `kClosed` and `open()` becomes false, but the packet list that
goes out is empty — the terminal control packet is an unimplemented TODO in
`base_server_writer.cc`, and `Finish` does not even take a status. -/
theorem C2_finish_closes_but_sends_nothing :
    ∀ (w : BaseServerWriter), w.isOpen = true →
      w.Finish = ({ w with state := .kClosed }, ([] : List Packet)) ∧
      (w.Finish.1).isOpen = false ∧
      w.Finish.2 = [] := by
  intro w hw
  simp [BaseServerWriter.Finish, BaseServerWriter.isOpen, hw]
  simp [BaseServerWriter.isOpen] at hw ⊢
  simp [hw]

/-- Witness for C2: the concrete open writer of the test call
(channel 1, service 42, method 100) closes without emitting any packet. -/
theorem C2_finish_closes_but_sends_nothing_witness :
    (BaseServerWriter.mk ⟨1, 64, 42, 100⟩ 0 .kOpen).isOpen = true ∧
    ((BaseServerWriter.mk ⟨1, 64, 42, 100⟩ 0 .kOpen).Finish.1).isOpen
        = false ∧
    (BaseServerWriter.mk ⟨1, 64, 42, 100⟩ 0 .kOpen).Finish.2 = [] :=
  ⟨by decide,
   (C2_finish_closes_but_sends_nothing
     (BaseServerWriter.mk ⟨1, 64, 42, 100⟩ 0 .kOpen) (by decide)).2.1,
   (C2_finish_closes_but_sends_nothing
     (BaseServerWriter.mk ⟨1, 64, 42, 100⟩ 0 .kOpen) (by decide)).2.2⟩

/-- C3: a packet with all six required fields (every packet of the model
carries them) and a zero-length payload has a minimum encoded size of exactly
12 bytes, this equals the test's `kReservedSize`, and the channel reserves
exactly that many bytes of headroom before the payload sub-span. -/
theorem C3_min_encoded_size :
    (∀ (p : Packet), p.payload = [] → p.MinEncodedSizeBytes = 12) ∧
    kReservedSize = kTestPacket.MinEncodedSizeBytes ∧
    ∀ (bufferSize : Nat) (p : Packet),
      p.MinEncodedSizeBytes ≤ bufferSize →
      (OutputBuffer.payload bufferSize p).offset = p.MinEncodedSizeBytes := by
  refine ⟨fun p _ => rfl, rfl, fun bufferSize p h => ?_⟩
  simp [OutputBuffer.payload, h]

/-- Witness for C3: the test packet at a 20-byte buffer. -/
theorem C3_min_encoded_size_witness :
    kTestPacket.payload = [] ∧
    kTestPacket.MinEncodedSizeBytes = 12 ∧
    kTestPacket.MinEncodedSizeBytes ≤ 20 ∧
    (OutputBuffer.payload 20 kTestPacket).offset
        = kTestPacket.MinEncodedSizeBytes :=
  ⟨by decide, C3_min_encoded_size.1 kTestPacket (by decide), by decide,
   C3_min_encoded_size.2.2 20 kTestPacket (by decide)⟩

/-- C4: for a buffer of size `n ≥ 12`, the payload sub-span has size exactly
`n - 12` and starts 12 bytes past the buffer's base, and sending a packet
whose payload fits in the remaining space returns `Ok`. -/
theorem C4_payload_math :
    ∀ (n : Nat), 12 ≤ n →
      (OutputBuffer.payload n kTestPacket).size = n - 12 ∧
      (OutputBuffer.payload n kTestPacket).offset = 12 ∧
      ∀ (payload : List Nat), payload.length ≤ n - 12 →
        Channel.Send n { kTestPacket with payload := payload } = .ok := by
  intro n hn
  refine ⟨?_, ?_, fun payload hp => ?_⟩
  · simp [OutputBuffer.payload, Packet.minEncodedSizeBytes_eq, hn]
  · simp [OutputBuffer.payload, Packet.minEncodedSizeBytes_eq, hn]
  · have : ({ kTestPacket with payload := payload } :
        Packet).MinEncodedSizeBytes = 12 := rfl
    simp only [Channel.Send, this]
    have : 12 + payload.length ≤ n := by omega
    simp [this]

/-- Witness for C4: a 20-byte buffer with a 5-byte payload. -/
theorem C4_payload_math_witness :
    (12 ≤ 20 ∧ (5 : Nat) ≤ 20 - 12) ∧
    (OutputBuffer.payload 20 kTestPacket).size = 20 - 12 ∧
    (OutputBuffer.payload 20 kTestPacket).offset = 12 ∧
    Channel.Send 20 { kTestPacket with payload := [1, 2, 3, 4, 5] } = .ok :=
  ⟨⟨by decide, by decide⟩, (C4_payload_math 20 (by decide)).1,
   (C4_payload_math 20 (by decide)).2.1,
   (C4_payload_math 20 (by decide)).2.2 [1, 2, 3, 4, 5] (by decide)⟩

/-- C5: a buffer smaller than the 12 reserved header bytes yields an empty
payload sub-span and `Send` returns `Internal`; and `Send` returns `Internal`
whenever the packet's payload exceeds the space remaining after the reserved
header. -/
theorem C5_too_small_is_internal :
    (∀ (n : Nat), n < 12 →
      OutputBuffer.payload n kTestPacket = Span.empty ∧
      Channel.Send n kTestPacket = .internal) ∧
    ∀ (n : Nat) (payload : List Nat), n - 12 < payload.length →
      Channel.Send n { kTestPacket with payload := payload } = .internal := by
  constructor
  · intro n hn
    constructor
    · simp only [OutputBuffer.payload, Packet.minEncodedSizeBytes_eq]
      rw [if_neg (by omega)]
    · simp only [Channel.Send, Packet.minEncodedSizeBytes_eq]
      rw [if_neg (by simp [kTestPacket]; omega)]
  · intro n payload hp
    have h12 : ({ kTestPacket with payload := payload } :
        Packet).MinEncodedSizeBytes = 12 := rfl
    simp only [Channel.Send, h12]
    rw [if_neg (by simp; omega)]

/-- Witness for C5: an 11-byte buffer, and a 13-byte buffer with a 2-byte
payload. -/
theorem C5_too_small_is_internal_witness :
    ((11 : Nat) < 12 ∧ (13 : Nat) - 12 < ([6, 7] : List Nat).length) ∧
    OutputBuffer.payload 11 kTestPacket = Span.empty ∧
    Channel.Send 11 kTestPacket = .internal ∧
    Channel.Send 13 { kTestPacket with payload := [6, 7] } = .internal :=
  ⟨⟨by decide, by decide⟩, (C5_too_small_is_internal.1 11 (by decide)).1,
   (C5_too_small_is_internal.1 11 (by decide)).2,
   C5_too_small_is_internal.2 13 [6, 7] (by decide)⟩

/-- C6: the configuration setters validate their arguments —
`set_extend_window_divisor` rejects every divisor ≤ 1 with `InvalidArgument`
and accepts the rest, `set_max_retries` rejects retries < 1 or above the
current lifetime limit, `set_max_lifetime_retries` rejects limits below the
current `max_retries`; on rejection the stored configuration is unchanged,
and on success exactly the one knob is updated. -/
theorem C6_config_validation :
    ∀ (c : Client) (d r x : Nat),
      ((c.set_extend_window_divisor d).1 = .invalidArgument ↔ d ≤ 1) ∧
      (d ≤ 1 → (c.set_extend_window_divisor d).2 = c) ∧
      (1 < d → c.set_extend_window_divisor d =
        (.ok, { c with maxParameters :=
          { c.maxParameters with extendWindowDivisor := d } })) ∧
      ((c.set_max_retries r).1 = .invalidArgument ↔
        (r < 1 ∨ c.maxLifetimeRetries < r)) ∧
      ((r < 1 ∨ c.maxLifetimeRetries < r) → (c.set_max_retries r).2 = c) ∧
      (1 ≤ r → r ≤ c.maxLifetimeRetries →
        c.set_max_retries r = (.ok, { c with maxRetries := r })) ∧
      ((c.set_max_lifetime_retries x).1 = .invalidArgument ↔
        x < c.maxRetries) ∧
      (x < c.maxRetries → (c.set_max_lifetime_retries x).2 = c) ∧
      (c.maxRetries ≤ x →
        c.set_max_lifetime_retries x =
          (.ok, { c with maxLifetimeRetries := x })) := by
  intro c d r x
  refine ⟨?_, ?_, ?_, ?_, ?_, ?_, ?_, ?_, ?_⟩ <;>
    simp only [Client.set_extend_window_divisor, Client.set_max_retries,
      Client.set_max_lifetime_retries, gt_iff_lt]
  · split_ifs with h <;> simp [h]
  · intro h
    rw [if_pos h]
  · intro h
    rw [if_neg (by omega)]
  · split_ifs with h <;> simp [h] <;> omega
  · intro h
    rw [if_pos h]
  · intro h1 h2
    rw [if_neg (by omega)]
  · split_ifs with h <;> simp [h]
  · intro h
    rw [if_pos h]
  · intro h
    rw [if_neg (by omega)]

/-- Witness for C6: on a freshly constructed client, divisor 1 and
0 retries are rejected without touching the state, and in-range values are
stored. -/
theorem C6_config_validation_witness :
    ((Client.construct ⟨128, []⟩).set_extend_window_divisor 1).2
        = Client.construct ⟨128, []⟩ ∧
    ((Client.construct ⟨128, []⟩).set_max_retries 0).2
        = Client.construct ⟨128, []⟩ ∧
    ((Client.construct ⟨128, []⟩).set_max_lifetime_retries 2).2
        = Client.construct ⟨128, []⟩ ∧
    (Client.construct ⟨128, []⟩).set_extend_window_divisor 4 =
      (.ok, { Client.construct ⟨128, []⟩ with maxParameters :=
        { (Client.construct ⟨128, []⟩).maxParameters with
            extendWindowDivisor := 4 } }) :=
  ⟨(C6_config_validation (Client.construct ⟨128, []⟩) 1 0 2).2.1 (by decide),
   (C6_config_validation (Client.construct ⟨128, []⟩) 1 0 2).2.2.2.2.1
     (by decide),
   (C6_config_validation (Client.construct ⟨128, []⟩) 1 0 2).2.2.2.2.2.2.2.1
     (by decide),
   (C6_config_validation (Client.construct ⟨128, []⟩) 4 0 2).2.2.1
     (by decide)⟩

/-- C7: `CancelTransfer` on an unassigned handle (id 0, as produced by the
default constructor) leaves the whole client — including the transfer
thread's queue — unchanged; on an assigned handle it appends exactly one
cancel event for that handle to the thread's queue and changes nothing
else. -/
theorem C7_cancel_transfer :
    ∀ (c : Client) (h : TransferHandle),
      ({} : TransferHandle).id = 0 ∧
      (h.id = 0 → c.CancelTransfer h = c) ∧
      (h.id ≠ 0 → c.CancelTransfer h =
        { c with thread := { c.thread with
            queue := c.thread.queue ++ [.cancelClientTransfer h.id] } }) := by
  intro c h
  refine ⟨rfl, fun h0 => ?_, fun h0 => ?_⟩
  · simp [Client.CancelTransfer, TransferHandle.is_unassigned,
      TransferHandle.kUnassignedHandleId, h0]
  · simp [Client.CancelTransfer, TransferHandle.is_unassigned,
      TransferHandle.kUnassignedHandleId, h0,
      TransferThread.CancelClientTransfer]

/-- Witness for C7: the default handle is a no-op, handle 7 enqueues one
cancel event. -/
theorem C7_cancel_transfer_witness :
    (Client.construct ⟨128, []⟩).CancelTransfer {}
        = Client.construct ⟨128, []⟩ ∧
    (Client.construct ⟨128, []⟩).CancelTransfer ⟨7⟩ =
      { Client.construct ⟨128, []⟩ with thread :=
        { (Client.construct ⟨128, []⟩).thread with
            queue := (Client.construct ⟨128, []⟩).thread.queue ++
              [.cancelClientTransfer 7] } } :=
  ⟨(C7_cancel_transfer (Client.construct ⟨128, []⟩) {}).2.1 (by decide),
   (C7_cancel_transfer (Client.construct ⟨128, []⟩) ⟨7⟩).2.2 (by decide)⟩

/-- C8: a client constructed with `max_bytes_to_receive = 0` stores the
transfer thread's `max_chunk_size()` as its window size; with a positive
`max_bytes_to_receive` it stores that value. -/
theorem C8_window_size :
    ∀ (t : TransferThread) (d : Nat),
      (Client.construct t 0 d).maxParameters.maxWindowSizeBytes
          = t.maxChunkSize ∧
      ∀ (m : Nat), 0 < m →
        (Client.construct t m d).maxParameters.maxWindowSizeBytes = m := by
  intro t d
  refine ⟨rfl, fun m hm => ?_⟩
  simp [Client.construct, hm]

/-- Witness for C8: a thread with 512-byte chunks, requesting 0 and then
2048 bytes. -/
theorem C8_window_size_witness :
    (Client.construct ⟨512, []⟩ 0 2).maxParameters.maxWindowSizeBytes
        = 512 ∧
    (0 : Nat) < 2048 ∧
    (Client.construct ⟨512, []⟩ 2048 2).maxParameters.maxWindowSizeBytes
        = 2048 :=
  ⟨(C8_window_size ⟨512, []⟩ 2).1, by decide,
   (C8_window_size ⟨512, []⟩ 2).2 2048 (by decide)⟩

/-- C9: `has_value()` holds exactly when the stored CRC tag matches the CRC
of the current contents; `emplace` and assignment write the value slot
strictly before recomputing the tag from it, so immediately after either
completes `has_value()` is true and `value()` returns the written value —
for any checksum function. -/
theorem C9_persistent_integrity :
    ∀ (α : Type) (crcFn : α → Nat) (p : Persistent α) (v : α),
      (Persistent.has_value crcFn p = true ↔ p.crc = crcFn p.contents) ∧
      Persistent.emplace crcFn p v = (p.writeContents v).writeCrc crcFn ∧
      (p.writeContents v).value = v ∧
      Persistent.has_value crcFn (Persistent.emplace crcFn p v) = true ∧
      (Persistent.emplace crcFn p v).value = v ∧
      Persistent.assign crcFn p v = (p.writeContents v).writeCrc crcFn ∧
      Persistent.has_value crcFn (Persistent.assign crcFn p v) = true ∧
      (Persistent.assign crcFn p v).value = v := by
  intro α crcFn p v
  refine ⟨?_, rfl, rfl, ?_, rfl, rfl, ?_, rfl⟩ <;>
    simp [Persistent.has_value, Persistent.emplace, Persistent.assign,
      Persistent.writeContents, Persistent.writeCrc]

/-- C10: after move-assignment, the moved-from source writer is `kClosed`:
`open()` is false, `AcquirePayloadBuffer` returns an empty span and changes
nothing, `ReleasePayloadBuffer` returns `FailedPrecondition` and sends no
packet, and `Finish` is a no-op that sends nothing. -/
theorem C10_move_leaves_source_closed :
    ∀ (target source : BaseServerWriter),
      ((target.moveAssign source).2).state = .kClosed ∧
      ((target.moveAssign source).2).isOpen = false ∧
      ((target.moveAssign source).2).AcquirePayloadBuffer =
        ((target.moveAssign source).2, Span.empty) ∧
      (∀ (payload : List Nat),
        ((target.moveAssign source).2).ReleasePayloadBuffer payload =
          (.failedPrecondition, [])) ∧
      ((target.moveAssign source).2).Finish =
        ((target.moveAssign source).2, []) := by
  intro target source
  refine ⟨rfl, rfl, ?_, fun payload => ?_, ?_⟩ <;>
    simp [BaseServerWriter.moveAssign, BaseServerWriter.AcquirePayloadBuffer,
      BaseServerWriter.ReleasePayloadBuffer, BaseServerWriter.Finish,
      BaseServerWriter.isOpen]

/-! ## Call-callback lemmas -/

/-- A closed call drops every event: no callback ever fires again. -/
theorem callRunFrom_closed (events : List CallEvent) :
    callRunFrom .closed events = [] := by
  induction events with
  | nil => rfl
  | cons e es ih => cases e <;> simp [callRunFrom, callStep, ih]

/-- From any live state, the number of terminal callbacks a run fires is 1
when the run's first closing event is an inbound terminal or error packet
and 0 otherwise. -/
theorem terminalCallbackCount_callRunFrom (events : List CallEvent) :
    ∀ (s : CallState), s = .active ∨ s = .awaitingCompletion →
      terminalCallbackCount (callRunFrom s events) =
        if closedByInboundPacket events then 1 else 0 := by
  induction events with
  | nil =>
    rintro s (rfl | rfl) <;> rfl
  | cons e es ih =>
    rintro s (rfl | rfl) <;> cases e <;>
      simp [callRunFrom, callStep, closedByInboundPacket, List.find?,
        CallEvent.isClosing, terminalCallbackCount, Callback.isTerminal,
        callRunFrom_closed] <;>
      first
        | exact ih .active (Or.inl rfl)
        | exact ih .awaitingCompletion (Or.inr rfl)

/-- From any live state, once a terminal callback fires no further callback
of any kind follows it. -/
theorem noCallbackAfterTerminal_callRunFrom (events : List CallEvent) :
    ∀ (s : CallState), s = .active ∨ s = .awaitingCompletion →
      noCallbackAfterTerminal (callRunFrom s events) = true := by
  induction events with
  | nil =>
    rintro s (rfl | rfl) <;> rfl
  | cons e es ih =>
    rintro s (rfl | rfl) <;> cases e <;>
      simp [callRunFrom, callStep, noCallbackAfterTerminal,
        Callback.isTerminal, callRunFrom_closed] <;>
      first
        | exact ih .active (Or.inl rfl)
        | exact ih .awaitingCompletion (Or.inr rfl)

/-- C1 (counterexample): a successfully started call whose run consists of a
local cancel ends the run closed, yet fires neither `on_completed` nor
`on_error` — the total is 0, not the claimed 1. -/
theorem C1_cancelled_run_fires_no_terminal_callback :
    callFinalState [CallEvent.localCancel] = .closed ∧
    ¬ terminalCallbackCount (callRun [CallEvent.localCancel]) = 1 := by
  decide

/-- C1 (amended): over any whole run of a successfully started call, the
total number of `on_completed` plus `on_error` invocations is at most 1; it
is exactly 1 precisely when the run's first call-closing event is an inbound
terminal or error packet (a run closed by a local cancel, or never closed,
fires neither); and `on_next` is never invoked after `on_completed` or
`on_error` has fired. -/
theorem C1_callback_exclusivity :
    ∀ (events : List CallEvent),
      terminalCallbackCount (callRun events) ≤ 1 ∧
      (terminalCallbackCount (callRun events) = 1 ↔
        closedByInboundPacket events = true) ∧
      noCallbackAfterTerminal (callRun events) = true := by
  intro events
  have hcount := terminalCallbackCount_callRunFrom events .active (Or.inl rfl)
  refine ⟨?_, ?_, ?_⟩
  · rw [callRun, hcount]
    split <;> omega
  · rw [callRun, hcount]
    split <;> simp_all
  · exact noCallbackAfterTerminal_callRunFrom events .active (Or.inl rfl)

end Pigweed
